import Mathlib

/-!
Shallow embedding of the LiquidLauncher launch-orchestration core
(src/cloud.rs and src/app/gui.rs) and proofs about it.

Machine integers are modelled as Nat/Int with explicit wrap-around where the
Rust code performs an `as` cast.  Fallible Rust code (anyhow::Result) is
modelled with Except; code that can panic (`unwrap`) is modelled with an
explicit outcome type recording the panic.
-/

namespace LiquidLauncher

/-! ## Data model from src/cloud.rs -/

/-- Embeds struct Build (src/cloud.rs).  `build_id` is a Rust u32, modelled as
a Nat (all uses compare it for equality against another u32). -/
structure Build where
  build_id : Nat
  commit_id : String
  branch : String
  lb_version : String
  mc_version : String
  message : String
  url : String
  fabric_api_version : String
  fabric_loader_version : String
  kotlin_version : String
  kotlin_mod_version : String
deriving DecidableEq, Repr

/-- Embeds enum ModSource (src/cloud.rs): tagged union over the two
acquisition strategies. -/
inductive ModSource where
  | SkipAd (artifact_name : String) (url : String) (extract : Bool)
  | Repository (repository : String) (artifact : String)
deriving DecidableEq, Repr

/-- Splits a character list at every occurrence of the separator; an
executable model of splitting a string on a one-character pattern. -/
def split_on_char (sep : Char) : List Char → List (List Char)
  | [] => [[]]
  | c :: t =>
    let r := split_on_char sep t
    if c = sep then [] :: r
    else
      match r with
      | [] => [[c]]
      | h :: r2 => (c :: h) :: r2

/-- Splitting a string on a one-character separator. -/
def string_split_on (s : String) (sep : Char) : List String :=
  (split_on_char sep s.data).map String.mk

/-- Replacing every occurrence of a character by another. -/
def replace_char (a b : Char) (s : String) : String :=
  String.mk (s.data.map fun c => if c = a then b else c)

/-- Modelled from the spec: `get_maven_artifact_path` lives in crate::utils,
which is not under src/.  Per the spec (ManifestResolver, §3, §8 ex. 5): the
colon-delimited coordinate `group:artifact:version` is converted to the
relative path `group/artifact/version/artifact-version.jar` with the group's
dots replaced by slashes; a coordinate with the wrong number of segments is a
path-resolution error. -/
def get_maven_artifact_path (artifact : String) : Except String String :=
  match string_split_on artifact ':' with
  | [group, name, version] =>
      .ok (replace_char '.' '/' group ++ "/" ++ name ++ "/" ++ version ++ "/"
            ++ name ++ "-" ++ version ++ ".jar")
  | _ => .error ("invalid artifact name: " ++ artifact)

/-- Embeds ModSource::get_path (src/cloud.rs lines 65-74). -/
def ModSource.get_path : ModSource → Except String String
  | .SkipAd artifact_name _ _ => .ok (artifact_name ++ ".jar")
  | .Repository _ artifact => get_maven_artifact_path artifact

/-- Embeds enum LoaderSubsystem (src/cloud.rs lines 94-100): exactly two
variants, no default. -/
inductive LoaderSubsystem where
  | Fabric
  | Forge
deriving DecidableEq, Repr

/-- Embeds the serde Deserialize derive on LoaderSubsystem: a fieldless enum
with renames "fabric" and "forge" decodes exactly those two externally-tagged
strings and rejects every other tag with an unknown-variant error. -/
def LoaderSubsystem.decode (tag : String) : Except String LoaderSubsystem :=
  if tag = "fabric" then .ok .Fabric
  else if tag = "forge" then .ok .Forge
  else .error ("unknown variant " ++ tag ++ ", expected fabric or forge")

/-! ## Event bridge from src/app/gui.rs -/

/-- An argument handed to a sciter callback by make_args!. -/
inductive SciterArg where
  | str (s : String)
  | int (i : Int)
deriving DecidableEq, Repr

/-- Behaviour of one sciter callback handle: invoking it with arguments
either succeeds or fails with a callback error. -/
def Callback : Type := List SciterArg → Except String Unit

/-- Result of running code that may panic (an `unwrap` on a None/Err). -/
inductive RunResult (α : Type) where
  | ok (a : α)
  | panicked (msg : String)
deriving DecidableEq, Repr

/-- Models Rust's String::from_utf8 on a byte list: strict UTF-8 decoding.
Accepts exactly well-formed sequences (no overlong encodings, no surrogate
code points, nothing above 0x10FFFF) and yields the decoded characters. -/
def utf8_decode_chars : List Nat → Option (List Char)
  | [] => some []
  | b0 :: t0 =>
    if b0 ≤ 0x7F then
      (utf8_decode_chars t0).map (Char.ofNat b0 :: ·)
    else match t0 with
    | [] => none
    | b1 :: t1 =>
      if 0xC2 ≤ b0 ∧ b0 ≤ 0xDF then
        if 0x80 ≤ b1 ∧ b1 ≤ 0xBF then
          (utf8_decode_chars t1).map
            (Char.ofNat ((b0 - 0xC0) * 0x40 + (b1 - 0x80)) :: ·)
        else none
      else if 0xE0 ≤ b0 ∧ b0 ≤ 0xEF then
        match t1 with
        | [] => none
        | b2 :: t2 =>
          if ((b0 = 0xE0 ∧ 0xA0 ≤ b1 ∧ b1 ≤ 0xBF)
              ∨ (0xE1 ≤ b0 ∧ b0 ≤ 0xEC ∧ 0x80 ≤ b1 ∧ b1 ≤ 0xBF)
              ∨ (b0 = 0xED ∧ 0x80 ≤ b1 ∧ b1 ≤ 0x9F)
              ∨ (0xEE ≤ b0 ∧ b0 ≤ 0xEF ∧ 0x80 ≤ b1 ∧ b1 ≤ 0xBF))
             ∧ (0x80 ≤ b2 ∧ b2 ≤ 0xBF) then
            (utf8_decode_chars t2).map
              (Char.ofNat ((b0 - 0xE0) * 0x1000 + (b1 - 0x80) * 0x40 + (b2 - 0x80)) :: ·)
          else none
      else if 0xF0 ≤ b0 ∧ b0 ≤ 0xF4 then
        match t1 with
        | [] => none
        | b2 :: t2 =>
          match t2 with
          | [] => none
          | b3 :: t3 =>
            if ((b0 = 0xF0 ∧ 0x90 ≤ b1 ∧ b1 ≤ 0xBF)
                ∨ (0xF1 ≤ b0 ∧ b0 ≤ 0xF3 ∧ 0x80 ≤ b1 ∧ b1 ≤ 0xBF)
                ∨ (b0 = 0xF4 ∧ 0x80 ≤ b1 ∧ b1 ≤ 0x8F))
               ∧ (0x80 ≤ b2 ∧ b2 ≤ 0xBF) ∧ (0x80 ≤ b3 ∧ b3 ≤ 0xBF) then
              (utf8_decode_chars t3).map
                (Char.ofNat ((b0 - 0xF0) * 0x40000 + (b1 - 0x80) * 0x1000
                              + (b2 - 0x80) * 0x40 + (b3 - 0x80)) :: ·)
            else none
      else none

/-- Models String::from_utf8 producing the decoded text. -/
def string_from_utf8 (data : List Nat) : Option String :=
  (utf8_decode_chars data).map fun cs => String.mk cs

/-- Embeds fn handle_stdout (src/app/gui.rs lines 46-50).
The bytes are decoded by String::from_utf8(..).unwrap() — a panic when the
bytes are not valid UTF-8 — and the text is dispatched to the on_output
callback with stream tag "stdout"; a failing invocation is propagated with
the question-mark operator as an error value. -/
def handle_stdout (on_output : Callback) (data : List Nat) :
    RunResult (Except String Unit) :=
  match string_from_utf8 data with
  | none => .panicked "called Result::unwrap on an Err value"
  | some text => .ok (on_output [.str "stdout", .str text])

/-- Embeds fn handle_stderr (src/app/gui.rs lines 52-56): as handle_stdout
but with stream tag "stderr". -/
def handle_stderr (on_output : Callback) (data : List Nat) :
    RunResult (Except String Unit) :=
  match string_from_utf8 data with
  | none => .panicked "called Result::unwrap on an Err value"
  | some text => .ok (on_output [.str "stderr", .str text])

/-- Modelled from the spec: enum ProgressUpdate lives in
crate::minecraft::progress, which is not under src/.  Per the spec (§3) it is
the tagged union set-maximum(count) / set-current-progress(count) /
set-label(text); the counts are unsigned, modelled as Nat. -/
inductive ProgressUpdate where
  | SetMax (max : Nat)
  | SetProgress (progress : Nat)
  | SetLabel (label : String)
deriving DecidableEq, Repr

/-- Models the Rust cast `n as i32` applied to an unsigned value: keep the
low 32 bits and reinterpret them as a two's-complement signed integer. -/
def u_as_i32 (n : Nat) : Int :=
  let m : Nat := n % 2 ^ 32
  if m < 2 ^ 31 then (m : Int) else (m : Int) - 2 ^ 32

/-- Embeds fn handle_progress (src/app/gui.rs lines 58-68): each variant is
forwarded to the on_progress callback, the counts cast with `as i32`; a
failing invocation is propagated with the question-mark operator. -/
def handle_progress (on_progress : Callback) (pu : ProgressUpdate) :
    Except String Unit :=
  match pu with
  | .SetMax max => on_progress [.str "max", .int (u_as_i32 max)]
  | .SetProgress progress => on_progress [.str "progress", .int (u_as_i32 progress)]
  | .SetLabel label => on_progress [.str "label", .str label]

/-! ## Launch session supervisor from src/app/gui.rs

The EventHandler owns the runner-instance slot and the join-handle slot, both
behind one async runtime: `run_client` holds both mutexes for its whole body,
so it is modelled as one atomic state transition; the spawned background task
(gui.rs lines 97-132) is modelled as a separate function of the external
world (catalog response, launch outcome, callback liveness), and its effects
on the shared slot are applied when it completes. -/

/-- Embeds struct RunnerInstance (src/app/gui.rs lines 25-27): holds the
sending half of the one-shot cancellation channel.  The sender is modelled by
whether a send on it will be accepted (the receiving half still alive). -/
structure RunnerInstance where
  terminator_send_ok : Bool
deriving DecidableEq, Repr

/-- Models a tokio JoinHandle: awaiting it reports whether the task
panicked. -/
structure JoinHandle where
  task_panicked : Bool
deriving DecidableEq, Repr

/-- Modelled from the spec: LauncherOptions lives in crate::main, not under
src/.  The core only reads it, serializes it to JSON and persists it, so it
is modelled by its JSON encoding. -/
structure LauncherOptions where
  json : String
deriving DecidableEq, Repr

/-- Embeds LauncherOptions::to_json as used by get_options (gui.rs 218). -/
def LauncherOptions.to_json (o : LauncherOptions) : String := o.json

/-- Embeds struct ConstantLauncherData (src/app/gui.rs lines 29-32); the
ProjectDirs app_data is represented by its config directory, the only part
the embedded operations use. -/
structure ConstantLauncherData where
  config_dir : String
  options : LauncherOptions
deriving DecidableEq, Repr

/-- Embeds the mutable state of struct EventHandler (src/app/gui.rs lines
34-39): the shared constant data, the runner-instance slot and the
join-handle slot. -/
structure EventHandlerState where
  constant_data : ConstantLauncherData
  runner_instance : Option RunnerInstance
  join_handle : Option JoinHandle
deriving DecidableEq, Repr

/-- Embeds struct LaunchingParameter as built in run_client (src/app/gui.rs
lines 86-93). -/
structure LaunchingParameter where
  auth_player_name : String
  auth_uuid : String
  auth_access_token : String
  auth_xuid : String
  clientid : String
  user_type : String
deriving DecidableEq, Repr

/-- The account_data sciter Value: get_item(key).as_string() modelled as a
partial map from item name to string. -/
def AccountData : Type := String → Option String

/-- Embeds the LaunchingParameter construction of run_client (src/app/gui.rs
lines 86-93), with the literal fallback values for missing fields. -/
def mk_launching_parameter (account_data : AccountData) : LaunchingParameter where
  auth_player_name := (account_data "username").getD "unexpected"
  auth_uuid := (account_data "id").getD "069a79f4-44e9-4726-a5be-fca90e38aaf5"
  auth_access_token := (account_data "accessToken").getD "-"
  auth_xuid := "x"
  clientid := "x"
  user_type := (account_data "type").getD "legacy"

/-- The external world one launch session runs against: the catalog response
to LauncherApi::load_all_builds, the outcome of prelauncher::launch, whether
each callback invocation is accepted by the presentation layer, and whether
the cancellation receiver is still alive when a terminate signal is sent. -/
structure TaskEnv where
  load_all_builds : Except String (List Build)
  launch_result : Except String Unit
  on_error_ok : Bool
  on_finalization_ok : Bool
  terminator_receiver_alive : Bool
deriving Repr

/-- Models the Rust cast `build_id as u32` (gui.rs line 106) on an i32 value:
two's-complement reinterpretation of the low 32 bits. -/
def i32_as_u32 (i : Int) : Nat := (i % 2 ^ 32).toNat

/-- What the background task of one session did: whether it reached the
statement clearing the runner slot, the messages passed to the on_error
callback, how many times the on_finalization callback was invoked, and how
the task itself ended. -/
structure TaskEffects where
  cleared_runner : Bool
  error_messages : List String
  finalization_count : Nat
  outcome : RunResult Unit
deriving DecidableEq, Repr

/-- Embeds the background task spawned by run_client (src/app/gui.rs lines
97-132): fetch all builds (early return through on_error on failure), look
up the requested build id (early return through on_error when absent), run
the launch procedure (reporting its error through on_error), then clear the
runner slot and invoke on_finalization.  Every callback invocation is
followed by Rust's `.unwrap()`, so a rejected invocation panicks the task. -/
def session_task (build_id : Int) (env : TaskEnv) : TaskEffects :=
  match env.load_all_builds with
  | .error err =>
      if env.on_error_ok then ⟨false, [err], 0, .ok ()⟩
      else ⟨false, [err], 0, .panicked "called Result::unwrap on an Err value"⟩
  | .ok builds =>
    match builds.find? (fun x => x.build_id = i32_as_u32 build_id) with
    | none =>
        if env.on_error_ok then ⟨false, ["unable to find build"], 0, .ok ()⟩
        else ⟨false, ["unable to find build"], 0,
              .panicked "called Result::unwrap on an Err value"⟩
    | some _build =>
      match env.launch_result with
      | .error err =>
          if env.on_error_ok then
            if env.on_finalization_ok then ⟨true, [err], 1, .ok ()⟩
            else ⟨true, [err], 1, .panicked "called Result::unwrap on an Err value"⟩
          else ⟨false, [err], 0, .panicked "called Result::unwrap on an Err value"⟩
      | .ok _ =>
          if env.on_finalization_ok then ⟨true, [], 1, .ok ()⟩
          else ⟨true, [], 1, .panicked "called Result::unwrap on an Err value"⟩

/-- What run_client returned to the script and did to the supervisor: the
resulting state, the boolean handed back to sciter, and the spawned task (if
any) with the parameters wired into it. -/
structure RunClientResult where
  state : EventHandlerState
  ret : Bool
  spawned : Option (Int × LaunchingParameter)

/-- Embeds EventHandler::run_client (src/app/gui.rs lines 73-138).  Both
mutexes are held for the whole body, so the body is one atomic transition:
if the runner slot is occupied it returns true at once with no other effect;
otherwise it builds the LaunchingParameter, spawns the session task, stores
a fresh RunnerInstance in the slot and the task's JoinHandle in the handle
slot, and returns true. -/
def run_client (s : EventHandlerState) (build_id : Int)
    (account_data : AccountData) (env : TaskEnv) : RunClientResult :=
  if s.runner_instance.isSome then ⟨s, true, none⟩
  else
    let lp := mk_launching_parameter account_data
    let effects := session_task build_id env
    ⟨{ s with
        runner_instance := some ⟨env.terminator_receiver_alive⟩,
        join_handle := some ⟨effects.outcome ≠ .ok ()⟩ },
      true, some (build_id, lp)⟩

/-- Applies the background task's effect on the shared runner slot (gui.rs
line 129): the slot is set to None only when the task reached that
statement. -/
def apply_task_effects (s : EventHandlerState) (e : TaskEffects) :
    EventHandlerState :=
  if e.cleared_runner then { s with runner_instance := none } else s

/-- One session observed to completion: run_client followed by the spawned
task running against the external world and its slot-clearing (if reached)
being applied. -/
structure SessionRun where
  final_state : EventHandlerState
  ret : Bool
  effects : Option TaskEffects

/-- Runs run_client and, when it spawned a task, the task to completion. -/
def run_client_to_completion (s : EventHandlerState) (build_id : Int)
    (account_data : AccountData) (env : TaskEnv) : SessionRun :=
  let r := run_client s build_id account_data env
  match r.spawned with
  | none => ⟨r.state, r.ret, none⟩
  | some _ =>
      let e := session_task build_id env
      ⟨apply_task_effects r.state e, r.ret, some e⟩

/-- Embeds EventHandler::terminate (src/app/gui.rs lines 140-158): take the
runner instance and, when present, send the cancellation signal (unwrap:
panics when the receiver is gone); then take the join handle, unwrap it
(panics when it is None) and await it, unwrapping the join result (panics
when the task panicked). -/
def terminate (s : EventHandlerState) : EventHandlerState × RunResult Bool :=
  let s1 : EventHandlerState := { s with runner_instance := none }
  let send_step : RunResult Unit :=
    match s.runner_instance with
    | some inst =>
        if inst.terminator_send_ok then .ok ()
        else .panicked "called Result::unwrap on an Err value"
    | none => .ok ()
  match send_step with
  | .panicked msg => (s1, .panicked msg)
  | .ok _ =>
    match s1.join_handle with
    | none => ({ s1 with join_handle := none },
               .panicked "called Option::unwrap on a None value")
    | some jh =>
        ({ s1 with join_handle := none },
         if jh.task_panicked then .panicked "called Result::unwrap on an Err value"
         else .ok true)

/-- Embeds EventHandler::get_options (src/app/gui.rs lines 216-221): the
stored options serialized to JSON (the sciter Value is the parsed JSON). -/
def get_options (s : EventHandlerState) : String :=
  s.constant_data.options.to_json

/-- Embeds EventHandler::store_options (src/app/gui.rs lines 223-230): a
task is spawned that parses the passed value and prints the result; nothing
is written to the supervisor state, and true is returned. -/
def store_options (s : EventHandlerState) (options : String) :
    EventHandlerState × Bool :=
  (s, true)

/-- What exit_app persists before exiting the process. -/
structure ExitEffect where
  stored_options : LauncherOptions
  stored_dir : String
  exit_code : Nat
deriving DecidableEq, Repr

/-- Embeds EventHandler::exit_app (src/app/gui.rs lines 232-238): persists
the supervisor's constant options into the config directory, then exits the
process with code 0. -/
def exit_app (s : EventHandlerState) : ExitEffect :=
  ⟨s.constant_data.options, s.constant_data.config_dir, 0⟩

/-- One script-side start request: the arguments of one run_client call
together with the external world that call would run against. -/
structure RunCall where
  build_id : Int
  account_data : AccountData
  env : TaskEnv

/-- A sequence of run_client calls issued while no session completes in
between (the claims quantify over start calls while a session is active):
returns the final supervisor state and how many RunnerInstances were
installed along the way. -/
def run_client_seq (s : EventHandlerState) : List RunCall → EventHandlerState × Nat
  | [] => (s, 0)
  | c :: cs =>
    let r := run_client s c.build_id c.account_data c.env
    let rest := run_client_seq r.state cs
    (rest.1, (if r.spawned.isSome then 1 else 0) + rest.2)

/-! ## Helper lemmas -/

theorem run_client_occupied (s : EventHandlerState) (build_id : Int)
    (acct : AccountData) (env : TaskEnv) (h : s.runner_instance.isSome = true) :
    run_client s build_id acct env = ⟨s, true, none⟩ := by
  simp [run_client, h]

theorem run_client_idle_installs (s : EventHandlerState) (build_id : Int)
    (acct : AccountData) (env : TaskEnv) (h : s.runner_instance = none) :
    (run_client s build_id acct env).state.runner_instance
        = some ⟨env.terminator_receiver_alive⟩
    ∧ (run_client s build_id acct env).spawned
        = some (build_id, mk_launching_parameter acct) := by
  simp [run_client, h]

theorem run_client_seq_occupied (s : EventHandlerState) (calls : List RunCall)
    (h : s.runner_instance.isSome = true) : run_client_seq s calls = (s, 0) := by
  induction calls with
  | nil => rfl
  | cons c cs ih => simp [run_client_seq, run_client_occupied s _ _ _ h, ih]

theorem run_client_seq_spawn_count_le_one (s : EventHandlerState)
    (calls : List RunCall) : (run_client_seq s calls).2 ≤ 1 := by
  cases hr : s.runner_instance with
  | some inst =>
      rw [run_client_seq_occupied s calls (by simp [hr])]
      exact Nat.zero_le 1
  | none =>
      cases calls with
      | nil => exact Nat.zero_le 1
      | cons c cs =>
          have hs := (run_client_idle_installs s c.build_id c.account_data c.env hr).1
          have h2 := (run_client_idle_installs s c.build_id c.account_data c.env hr).2
          have hrest := run_client_seq_occupied
            (run_client s c.build_id c.account_data c.env).state cs (by simp [hs])
          simp [run_client_seq, h2, hrest]

theorem run_client_seq_idle_spawns_once (s : EventHandlerState)
    (calls : List RunCall) (h : s.runner_instance = none) (hne : calls ≠ []) :
    (run_client_seq s calls).2 = 1 := by
  cases calls with
  | nil => exact absurd rfl hne
  | cons c cs =>
      have hs := (run_client_idle_installs s c.build_id c.account_data c.env h).1
      have h2 := (run_client_idle_installs s c.build_id c.account_data c.env h).2
      have hrest := run_client_seq_occupied
        (run_client s c.build_id c.account_data c.env).state cs (by simp [hs])
      simp [run_client_seq, h2, hrest]

/-! ## Concrete fixtures used by witnesses and counterexamples -/

/-- A concrete build with id 7, as the catalog could return it. -/
def sample_build7 : Build :=
  ⟨7, "4f9a1c2", "legacy", "b73", "1.8.9", "some message",
   "https://example.invalid/b73", "0.1.0", "0.11.2", "1.6.10", "1.0"⟩

def sample_constant_data : ConstantLauncherData :=
  ⟨"/home/user/.config/LiquidLauncher", ⟨"keepLauncherOpen:false"⟩⟩

/-- An Idle supervisor: no RunnerInstance, no JoinHandle. -/
def idle_state : EventHandlerState := ⟨sample_constant_data, none, none⟩

/-- A supervisor with an active session. -/
def busy_state : EventHandlerState :=
  ⟨sample_constant_data, some ⟨true⟩, some ⟨false⟩⟩

/-- Account data with every item absent. -/
def empty_account : AccountData := fun _ => none

/-- A healthy external world whose catalog holds exactly build 7. -/
def env_ok : TaskEnv := ⟨.ok [sample_build7], .ok (), true, true, true⟩

/-- An external world where the catalog fetch fails. -/
def env_catalog_fail : TaskEnv :=
  ⟨.error "connection refused", .ok (), true, true, true⟩

/-- An external world where the finalization callback is disconnected. -/
def env_finalization_dead : TaskEnv :=
  ⟨.ok [sample_build7], .ok (), true, false, true⟩

/-- An output callback whose invocation always succeeds. -/
def live_output : Callback := fun _ => .ok ()

/-- An output callback whose receiving side is gone. -/
def dead_output : Callback := fun _ => .error "receiver gone"

/-- A start request used by witnesses: build 7 against the healthy world. -/
def sample_call : RunCall := ⟨7, empty_account, env_ok⟩

/-! ## Claims -/

/-- C1: while the runner slot is occupied, run_client returns the
already-running indication with the supervisor state unchanged and no task
spawned; over any sequence of start calls at most one RunnerInstance is
installed, and starting from Idle exactly the first call installs one. -/
theorem C1_exclusive_start :
    (∀ (s : EventHandlerState) (build_id : Int) (acct : AccountData)
        (env : TaskEnv), s.runner_instance.isSome = true →
        run_client s build_id acct env = ⟨s, true, none⟩)
    ∧ (∀ (s : EventHandlerState) (calls : List RunCall),
        (run_client_seq s calls).2 ≤ 1)
    ∧ (∀ (s : EventHandlerState) (calls : List RunCall),
        s.runner_instance = none → calls ≠ [] →
        (run_client_seq s calls).2 = 1) :=
  ⟨run_client_occupied, run_client_seq_spawn_count_le_one,
   run_client_seq_idle_spawns_once⟩

/-- Witness for C1 at a concrete busy state and a concrete two-call
sequence from Idle. -/
theorem C1_exclusive_start_witness :
    busy_state.runner_instance.isSome = true
    ∧ run_client busy_state 7 empty_account env_ok = ⟨busy_state, true, none⟩
    ∧ idle_state.runner_instance = none
    ∧ ([sample_call, sample_call] ≠ ([] : List RunCall))
    ∧ (run_client_seq idle_state [sample_call, sample_call]).2 = 1 :=
  ⟨rfl, C1_exclusive_start.1 busy_state 7 empty_account env_ok rfl, rfl,
   by simp,
   C1_exclusive_start.2.2 idle_state [sample_call, sample_call] rfl (by simp)⟩

/-- C2: the claim fails on the code.  Evaluated at a catalog-fetch failure,
the background task returns early after the error callback: the
RunnerInstance installed by run_client is never cleared (the slot still
holds it after the task has ended) and the finalization callback never
fires — the teardown invariant does not hold on this exit path. -/
theorem C2_missing_cleanup_on_early_return :
    (run_client_to_completion idle_state 1 empty_account env_catalog_fail).effects
        = some ⟨false, ["connection refused"], 0, .ok ()⟩
    ∧ (run_client_to_completion idle_state 1 empty_account
          env_catalog_fail).final_state.runner_instance = some ⟨true⟩ :=
  ⟨rfl, rfl⟩

/-- C3: the claim fails on the code.  terminate on an Idle supervisor (no
RunnerInstance, no JoinHandle) reaches join_handle.take().unwrap() on a
None value and panics instead of returning normally. -/
theorem C3_terminate_on_idle_panics :
    terminate idle_state
      = (idle_state, .panicked "called Option::unwrap on a None value") :=
  rfl

/-- C4: evaluated at a start with build id 42 against a catalog holding
only build 7: the error callback fires exactly once with exactly the
message "unable to find build" and no finalization fires — but the runner
slot still holds the installed RunnerInstance afterward, so the supervisor
is not Idle as the claim states. -/
theorem C4_build_not_found_leaves_runner_installed :
    (run_client_to_completion idle_state 42 empty_account env_ok).effects
        = some ⟨false, ["unable to find build"], 0, .ok ()⟩
    ∧ (run_client_to_completion idle_state 42 empty_account
          env_ok).final_state.runner_instance = some ⟨true⟩ :=
  ⟨rfl, rfl⟩

/-- C5 counterexample: a session whose finalization-callback invocation
fails does not log and continue — the unwrap panics the session task. -/
theorem C5_callback_failure_crashes_task :
    (session_task 7 env_finalization_dead).outcome
      = .panicked "called Result::unwrap on an Err value" :=
  rfl

/-- C5 (amended): a failed invocation of the output or progress callback is
propagated as an error value out of handle_stdout, handle_stderr and
handle_progress without panicking, but a failed invocation of the error or
finalization callback inside the session task panics the task (those calls
are unwrapped). -/
theorem C5_callback_failure_propagation :
    (∀ (out : Callback) (data : List Nat) (text : String),
        string_from_utf8 data = some text →
        handle_stdout out data = .ok (out [.str "stdout", .str text]))
    ∧ (∀ (out : Callback) (data : List Nat) (text : String),
        string_from_utf8 data = some text →
        handle_stderr out data = .ok (out [.str "stderr", .str text]))
    ∧ (∀ (pr : Callback) (pu : ProgressUpdate),
        ∃ args : List SciterArg, handle_progress pr pu = pr args)
    ∧ (∀ (build_id : Int) (err : String) (launch : Except String Unit)
          (finOk alive : Bool),
        (session_task build_id ⟨.error err, launch, false, finOk, alive⟩).outcome
          = .panicked "called Result::unwrap on an Err value")
    ∧ (∀ (build_id : Int) (builds : List Build) (errOk alive : Bool),
        (builds.find? fun x => x.build_id = i32_as_u32 build_id).isSome = true →
        (session_task build_id ⟨.ok builds, .ok (), errOk, false, alive⟩).outcome
          = .panicked "called Result::unwrap on an Err value")
    ∧ (∀ (build_id : Int) (builds : List Build) (err : String) (alive : Bool),
        (builds.find? fun x => x.build_id = i32_as_u32 build_id).isSome = true →
        (session_task build_id ⟨.ok builds, .error err, true, false, alive⟩).outcome
          = .panicked "called Result::unwrap on an Err value") := by
  refine ⟨fun out data text h => ?_, fun out data text h => ?_,
          fun pr pu => ?_, fun build_id err launch finOk alive => rfl,
          fun build_id builds errOk alive h => ?_,
          fun build_id builds err alive h => ?_⟩
  · simp [handle_stdout, h]
  · simp [handle_stderr, h]
  · cases pu <;> exact ⟨_, rfl⟩
  · obtain ⟨b, hb⟩ := Option.isSome_iff_exists.mp h
    simp [session_task, hb]
  · obtain ⟨b, hb⟩ := Option.isSome_iff_exists.mp h
    simp [session_task, hb]

/-- Witness for C5 at a concrete two-byte output, a dead output callback,
and concrete dead error/finalization callbacks. -/
theorem C5_callback_failure_propagation_witness :
    string_from_utf8 [104, 105] = some "hi"
    ∧ handle_stdout dead_output [104, 105]
        = .ok (dead_output [.str "stdout", .str "hi"])
    ∧ handle_stderr dead_output [104, 105]
        = .ok (dead_output [.str "stderr", .str "hi"])
    ∧ (session_task 1 ⟨.error "connection refused", .ok (), false, true,
          true⟩).outcome = .panicked "called Result::unwrap on an Err value"
    ∧ (([sample_build7].find? fun x => x.build_id = i32_as_u32 7).isSome = true)
    ∧ (session_task 7 ⟨.ok [sample_build7], .ok (), true, false, true⟩).outcome
        = .panicked "called Result::unwrap on an Err value"
    ∧ (session_task 7 ⟨.ok [sample_build7], .error "launch failed", true,
          false, true⟩).outcome
        = .panicked "called Result::unwrap on an Err value" :=
  ⟨by decide,
   C5_callback_failure_propagation.1 dead_output [104, 105] "hi" (by decide),
   C5_callback_failure_propagation.2.1 dead_output [104, 105] "hi" (by decide),
   C5_callback_failure_propagation.2.2.2.1 1 "connection refused" (.ok ())
     true true,
   by decide,
   C5_callback_failure_propagation.2.2.2.2.1 7 [sample_build7] true true
     (by decide),
   C5_callback_failure_propagation.2.2.2.2.2 7 [sample_build7] "launch failed"
     true (by decide)⟩

/-- C6: the claim fails on the code.  At the byte sequence [0xFF], which is
not valid UTF-8, handle_stdout and handle_stderr panic through
String::from_utf8(..).unwrap() instead of reporting a non-fatal condition:
the session task crashes even though the output callback is healthy. -/
theorem C6_invalid_utf8_panics :
    string_from_utf8 [0xFF] = none
    ∧ handle_stdout live_output [0xFF]
        = .panicked "called Result::unwrap on an Err value"
    ∧ handle_stderr live_output [0xFF]
        = .panicked "called Result::unwrap on an Err value" :=
  ⟨rfl, rfl, rfl⟩

/-- C7: ModSource::get_path is a pure function: a SkipAd value resolves to
the literal filename artifact_name followed by ".jar"; a Repository value
resolves through the maven coordinate — three colon-separated segments give
the canonical group/artifact/version/artifact-version.jar path with the
group dots turned into slashes, any other segment count is a
path-resolution error — and two calls on the same value agree. -/
theorem C7_get_path_pure :
    (∀ (artifact_name url : String) (extract : Bool),
        (ModSource.SkipAd artifact_name url extract).get_path
          = .ok (artifact_name ++ ".jar"))
    ∧ (∀ (repository artifact : String),
        (ModSource.Repository repository artifact).get_path
          = get_maven_artifact_path artifact)
    ∧ (∀ (artifact group name version : String),
        string_split_on artifact ':' = [group, name, version] →
        get_maven_artifact_path artifact
          = .ok (replace_char '.' '/' group ++ "/" ++ name ++ "/" ++ version
                  ++ "/" ++ name ++ "-" ++ version ++ ".jar"))
    ∧ (∀ artifact : String, (string_split_on artifact ':').length ≠ 3 →
        get_maven_artifact_path artifact
          = .error ("invalid artifact name: " ++ artifact))
    ∧ (∀ m : ModSource, m.get_path = m.get_path) := by
  refine ⟨fun n u e => rfl, fun r a => rfl, fun a g n v h => ?_,
          fun a h => ?_, fun m => rfl⟩
  · simp [get_maven_artifact_path, h]
  · rcases hl : string_split_on a ':' with _ | ⟨x, _ | ⟨y, _ | ⟨z, _ | ⟨w, t⟩⟩⟩⟩ <;>
      simp [get_maven_artifact_path, hl] <;> simp [hl] at h

/-- Witness for C7 at the spec's example coordinate and at a malformed
two-segment coordinate. -/
theorem C7_get_path_pure_witness :
    string_split_on "net.example:mod:2.1" ':' = ["net.example", "mod", "2.1"]
    ∧ get_maven_artifact_path "net.example:mod:2.1"
        = .ok "net/example/mod/2.1/mod-2.1.jar"
    ∧ (string_split_on "g:a" ':').length ≠ 3
    ∧ get_maven_artifact_path "g:a" = .error "invalid artifact name: g:a" :=
  ⟨by decide,
   C7_get_path_pure.2.2.1 "net.example:mod:2.1" "net.example" "mod" "2.1"
     (by decide),
   by decide, C7_get_path_pure.2.2.2.1 "g:a" (by decide)⟩

/-- C8: decoding a LoaderSubsystem accepts exactly the tags "fabric" and
"forge", mapping them to Fabric and Forge, and fails with an
unknown-variant error on every other tag. -/
theorem C8_loader_subsystem_closed :
    LoaderSubsystem.decode "fabric" = .ok .Fabric
    ∧ LoaderSubsystem.decode "forge" = .ok .Forge
    ∧ ∀ tag : String, tag ≠ "fabric" → tag ≠ "forge" →
        LoaderSubsystem.decode tag
          = .error ("unknown variant " ++ tag ++ ", expected fabric or forge") := by
  refine ⟨rfl, rfl, fun tag h1 h2 => ?_⟩
  simp [LoaderSubsystem.decode, h1, h2]

/-- Witness for C8 at the unrecognized tag "quilt". -/
theorem C8_loader_subsystem_closed_witness :
    ("quilt" ≠ "fabric") ∧ ("quilt" ≠ "forge")
    ∧ LoaderSubsystem.decode "quilt"
        = .error "unknown variant quilt, expected fabric or forge" :=
  ⟨by decide, by decide,
   C8_loader_subsystem_closed.2.2 "quilt" (by decide) (by decide)⟩

/-- C9: store_options returns true and leaves the supervisor state — in
particular the stored options — unchanged; get_options afterwards returns
the same JSON as before; exit_app persists exactly the options the
supervisor was constructed with. -/
theorem C9_store_options_frame :
    ∀ (s : EventHandlerState) (v : String),
      (store_options s v).1 = s
      ∧ (store_options s v).2 = true
      ∧ get_options (store_options s v).1 = get_options s
      ∧ exit_app (store_options s v).1 = exit_app s
      ∧ (exit_app s).stored_options = s.constant_data.options :=
  fun s v => ⟨rfl, rfl, rfl, rfl, rfl⟩

/-- C10: handle_progress forwards SetMax and SetProgress counts through the
wrapping u64-to-i32 cast: the value handed to the progress callback is
congruent to the count modulo 2^32, lies in the i32 range, and therefore
differs from every count exceeding 2^31 - 1. -/
theorem C10_progress_wrapping_cast :
    (∀ (pr : Callback) (n : Nat),
        handle_progress pr (.SetMax n) = pr [.str "max", .int (u_as_i32 n)])
    ∧ (∀ (pr : Callback) (n : Nat),
        handle_progress pr (.SetProgress n)
          = pr [.str "progress", .int (u_as_i32 n)])
    ∧ (∀ n : Nat, u_as_i32 n % 2 ^ 32 = (n : Int) % 2 ^ 32)
    ∧ (∀ n : Nat, -(2 ^ 31) ≤ u_as_i32 n ∧ u_as_i32 n < 2 ^ 31)
    ∧ (∀ n : Nat, 2 ^ 31 - 1 < n → u_as_i32 n ≠ (n : Int)) := by
  refine ⟨fun pr n => rfl, fun pr n => rfl, fun n => ?_, fun n => ?_,
          fun n h => ?_⟩ <;>
    · simp only [u_as_i32]
      split <;> omega

/-- Witness for C10 at the count 2^31, which the cast sends to -2^31. -/
theorem C10_progress_wrapping_cast_witness :
    2 ^ 31 - 1 < (2 ^ 31 : Nat)
    ∧ u_as_i32 (2 ^ 31) ≠ ((2 ^ 31 : Nat) : Int)
    ∧ u_as_i32 (2 ^ 31) = -(2 ^ 31) :=
  ⟨by decide, C10_progress_wrapping_cast.2.2.2.2 (2 ^ 31) (by decide),
   by decide⟩

end LiquidLauncher
